import Mathlib

/-!
Verification of the Project Loom follow-up scheduling core and frontend glue.

The repository is a three-tier app: a Next.js frontend (present in the
source tree), a FastAPI backend with a polling dispatch worker (described
by the in-repo docs `DATABASE.md` and the email-sending integration doc,
but whose Python source is not in the tree), and a relational job store.
The scheduling/retry core (job store operations, backoff ladder, dispatch
worker step) is therefore modelled from the specification; the frontend
definitions (composer schema, templates library, request construction)
are translated directly from the TypeScript source.

Time is modelled in seconds (Unix-style timestamps as naturals).
-/

namespace Loom

/-- Wire-level tone vocabulary: professional, friendly, urgent. -/
inductive Tone
| professional
| friendly
| urgent
deriving DecidableEq, Repr

/-- Wire-level status vocabulary of a follow-up job:
pending, scheduled, sent, replied, cancelled, failed. -/
inductive JobStatus
| pending
| scheduled
| sent
| replied
| cancelled
| failed
deriving DecidableEq, Repr

/-- API-layer error taxonomy from the spec (section 7). -/
inductive ApiError
| validationError
| notFoundError
| invalidStateError
deriving DecidableEq, Repr

/-- HTTP status code each API error surfaces as (spec section 7:
ValidationError and InvalidStateError are 400, NotFoundError is 404). -/
def httpStatus : ApiError → Nat
| .validationError => 400
| .notFoundError => 404
| .invalidStateError => 400

/-- Dispatch-time error classification (spec section 7): a
connection-inactive failure, a transient provider failure, or an
auth/reauth provider failure. -/
inductive DispatchError
| connectionInactive
| sendTransient
| sendAuth
deriving DecidableEq, Repr

/-- Connection status vocabulary (active, disabled, error). -/
inductive ConnectionStatus
| active
| disabled
| error
deriving DecidableEq, Repr

/-- A stored email-provider credential set (connections table in
DATABASE.md: id, user_id, provider, provider_email, status; the
credentials JSON payload is not needed by any claim and is omitted). -/
structure Connection where
  id : Nat
  user_id : Nat
  provider : String
  provider_email : String
  status : ConnectionStatus
deriving DecidableEq, Repr

/-- A follow-up job row (followup_jobs table in DATABASE.md plus the
provider message id recorded by mark_sent, spec section 4.1). -/
structure Job where
  id : Nat
  user_id : Nat
  connection_id : Nat
  original_recipient : String
  original_subject : String
  original_body : String
  delay_hours : Nat
  tone : Tone
  max_followups : Nat
  stop_on_reply : Bool
  status : JobStatus
  draft_subject : Option String := none
  draft_body : Option String := none
  scheduled_at : Option Nat := none
  sent_at : Option Nat := none
  reply_received_at : Option Nat := none
  failure_count : Nat := 0
  last_error : Option DispatchError := none
  provider_message_id : Option String := none
  created_at : Nat := 0
deriving DecidableEq, Repr

/-- Modelled from the spec: the fixed retry/backoff ladder of the
Dispatch Worker (section 4.3) and the email integration doc — a fixed
lookup, in seconds: attempt 1 failure waits 1 minute, attempt 2 waits
5 minutes, attempt 3 waits 15 minutes, any later attempt gets no
delay (terminal failure). -/
def backoff : Nat → Option Nat
| 1 => some 60
| 2 => some 300
| 3 => some 900
| _ => none

/-- Modelled from the spec: mark_sent (section 4.1) — transitions a
send-eligible (pending or scheduled) job to sent, recording the provider
message id and sent_at; a no-op on any other status, which makes a
second call on an already-sent job a no-op (idempotence guard). -/
def mark_sent (j : Job) (message_id : String) (sent_at : Nat) : Job :=
  if j.status = .pending ∨ j.status = .scheduled then
    { j with status := .sent, sent_at := some sent_at,
             provider_message_id := some message_id }
  else j

/-- Modelled from the spec: mark_failed (section 4.1) — on a
send-eligible job, increments failure_count, records last_error, and
either reschedules (scheduled_at := now + backoff attempt_number,
status back to pending) or, when attempt_number exceeds the ladder,
transitions to terminal failed; a no-op on any other status. -/
def mark_failed (j : Job) (e : DispatchError) (attempt_number : Nat) (now : Nat) : Job :=
  if j.status = .pending ∨ j.status = .scheduled then
    match backoff attempt_number with
    | some d =>
        { j with failure_count := j.failure_count + 1, last_error := some e,
                 scheduled_at := some (now + d), status := .pending }
    | none =>
        { j with failure_count := j.failure_count + 1, last_error := some e,
                 status := .failed }
  else j

/-- Modelled from the spec: cancel (section 4.1) — allowed only from
pending or scheduled; fails with InvalidStateError for sent, replied,
cancelled, failed, returning the error without touching the job. -/
def cancel (j : Job) : Except ApiError Job :=
  if j.status = .pending ∨ j.status = .scheduled then
    Except.ok { j with status := .cancelled }
  else
    Except.error .invalidStateError

/-- A job-creation request draft (spec section 4.1 enqueue plus the
POST /v1/followups request body in DATABASE.md). -/
structure JobDraft where
  connection_id : Nat
  original_recipient : String
  original_subject : String
  original_body : String
  delay_hours : Nat
  tone : Tone
  max_followups : Nat
  stop_on_reply : Bool
deriving DecidableEq, Repr

/-- The field-validation constraints of enqueue (spec section 4.1 and
DATABASE.md): delay_hours within [1, 168] and max_followups within
[1, 5]. -/
def draft_valid (draft : JobDraft) : Prop :=
  1 ≤ draft.delay_hours ∧ draft.delay_hours ≤ 168 ∧
  1 ≤ draft.max_followups ∧ draft.max_followups ≤ 5

instance (draft : JobDraft) : Decidable (draft_valid draft) :=
  inferInstanceAs (Decidable (_ ∧ _ ∧ _ ∧ _))

/-- Modelled from the spec: enqueue (section 4.1) — validates
delay_hours within [1, 168] and max_followups within [1, 5]
(ValidationError otherwise), then resolves the referenced connection
(NotFoundError when absent or not owned by the caller, InvalidStateError
when not active), computes scheduled_at = now + delay_hours and inserts
the job in status pending. -/
def enqueue (connections : List Connection) (caller_id : Nat) (draft : JobDraft)
    (now : Nat) (new_id : Nat) : Except ApiError Job :=
  if ¬ draft_valid draft then
    Except.error .validationError
  else
    match connections.find? (fun c => c.id == draft.connection_id) with
    | none => Except.error .notFoundError
    | some c =>
        if c.user_id ≠ caller_id then Except.error .notFoundError
        else if c.status ≠ .active then Except.error .invalidStateError
        else Except.ok
          { id := new_id, user_id := caller_id, connection_id := c.id,
            original_recipient := draft.original_recipient,
            original_subject := draft.original_subject,
            original_body := draft.original_body,
            delay_hours := draft.delay_hours, tone := draft.tone,
            max_followups := draft.max_followups,
            stop_on_reply := draft.stop_on_reply,
            status := .pending,
            scheduled_at := some (now + draft.delay_hours * 3600),
            created_at := now }

/-- Modelled from the spec: dispatch eligibility (section 4.1 list_due)
— a job is due at time now when its status is pending or scheduled and
its scheduled_at is set and at most now. -/
def is_due (now : Nat) (j : Job) : Bool :=
  (j.status == .pending || j.status == .scheduled) &&
    (match j.scheduled_at with
     | some t => t ≤ now
     | none => false)

/-- Ordering key used by list_due: the scheduled_at timestamp (due jobs
always have one; absent timestamps sort first). -/
def due_le (a b : Job) : Prop :=
  a.scheduled_at.getD 0 ≤ b.scheduled_at.getD 0

instance : DecidableRel due_le :=
  fun a b => Nat.decLe (a.scheduled_at.getD 0) (b.scheduled_at.getD 0)

instance : IsTotal Job due_le :=
  ⟨fun a b => Nat.le_total (a.scheduled_at.getD 0) (b.scheduled_at.getD 0)⟩

instance : IsTrans Job due_le :=
  ⟨fun _ _ _ h h' => Nat.le_trans h h'⟩

/-- Modelled from the spec: list_due (section 4.1) — all jobs with
status pending or scheduled and scheduled_at at most now, ordered by
scheduled_at ascending (oldest-due first). -/
def list_due (store : List Job) (now : Nat) : List Job :=
  List.insertionSort due_le (store.filter (is_due now))

/-- Statuses a reply can be recorded against (edges of the section 4.1
state machine into replied: pending, scheduled, sent). -/
def reply_eligible (s : JobStatus) : Bool :=
  s == .pending || s == .scheduled || s == .sent

/-- Terminal statuses per the section 4.1 state machine listing
(replied, cancelled, failed, sent). -/
def terminal (s : JobStatus) : Bool :=
  s == .replied || s == .cancelled || s == .failed || s == .sent

/-- The per-row update record_reply applies to the store: the target
row (matched by id) moves to replied when reply-eligible; any other
non-terminal row for the same recipient under the same user is
cancelled when the target has stop_on_reply set; every other row is
left as it is. -/
def reply_update (target : Job) (job_id : Nat) (received_at : Nat) (j : Job) : Job :=
  if j.id == job_id then
    if reply_eligible j.status then
      { j with status := .replied, reply_received_at := some received_at }
    else j
  else if target.stop_on_reply && j.user_id == target.user_id &&
          j.original_recipient == target.original_recipient &&
          !(terminal j.status) then
    { j with status := .cancelled }
  else j

/-- Modelled from the spec: record_reply (section 4.1) — transitions the
replied-to job to replied (stamping reply_received_at); when that job
has stop_on_reply set, additionally cancels every other non-terminal
job for the same recipient under the same user (cascading
cancellation), leaving terminal jobs untouched. -/
def record_reply (store : List Job) (job_id : Nat) (received_at : Nat) : List Job :=
  match store.find? (fun j => j.id == job_id) with
  | none => store
  | some target => store.map (reply_update target job_id received_at)

/-- Outcome of one provider-adapter send call (spec section 4.2):
a provider message id on success, a classified error on failure. -/
inductive SendOutcome
| ok (message_id : String)
| fail (e : DispatchError)
deriving DecidableEq, Repr

/-- Modelled from the spec: the Dispatch Worker per-job step
(section 4.3 steps 3 to 5). Returns the updated job together with the
number of provider-adapter send calls the step consumed. A job whose
connection is not active is marked failed with a connection-inactive
error and zero adapter calls; otherwise the adapter is called once and
the outcome routed to mark_sent or mark_failed with the next attempt
number. -/
def process_job (conn : Connection) (outcome : SendOutcome) (j : Job) (now : Nat) :
    Job × Nat :=
  if conn.status ≠ .active then
    (mark_failed j .connectionInactive (j.failure_count + 1) now, 0)
  else
    match outcome with
    | .ok m => (mark_sent j m now, 1)
    | .fail e => (mark_failed j e (j.failure_count + 1) now, 1)

/-- Modelled from the spec: send_now (section 4.4) — bypasses the
scheduled_at gating and reuses the identical per-job
adapter-call/mark_sent/mark_failed sequence of the Dispatch Worker. -/
def send_now (conn : Connection) (outcome : SendOutcome) (j : Job) (now : Nat) :
    Job × Nat :=
  process_job conn outcome j now

/-- Modelled from the spec: retry (section 4.4) — only valid on a job in
terminal failed state; resets failure bookkeeping enough to make the job
due immediately and eligible again, keeping the historical last_error. -/
def retry (j : Job) (now : Nat) : Except ApiError Job :=
  if j.status = .failed then
    Except.ok { j with status := .pending, scheduled_at := some now,
                       failure_count := 0 }
  else
    Except.error .invalidStateError

/-! Frontend definitions, translated from the TypeScript source. -/

/-- Template category vocabulary from lib/templates
(sales, networking, customer-success, recruiting). -/
inductive TemplateCategory
| sales
| networking
| customerSuccess
| recruiting
deriving DecidableEq, Repr

/-- A built-in follow-up template from lib/templates. The prose-only
String fields of the source interface (title, description, scenario,
subject, icon) are not consulted by any claim and are omitted; the
fields relevant to scheduling (id, category, tone, delayHours) are
kept verbatim. -/
structure EmailTemplate where
  id : String
  category : TemplateCategory
  tone : Tone
  delayHours : Nat
deriving DecidableEq, Repr

/-- The built-in templates library (lib/templates), in source order,
restricted to the embedded fields. -/
def templates : List EmailTemplate :=
  [ { id := "sales-cold-outreach", category := .sales,
      tone := .professional, delayHours := 72 },
    { id := "sales-demo-follow-up", category := .sales,
      tone := .friendly, delayHours := 24 },
    { id := "sales-proposal-follow-up", category := .sales,
      tone := .professional, delayHours := 96 },
    { id := "sales-closing", category := .sales,
      tone := .urgent, delayHours := 48 },
    { id := "networking-conference", category := .networking,
      tone := .friendly, delayHours := 48 },
    { id := "networking-linkedin", category := .networking,
      tone := .friendly, delayHours := 72 },
    { id := "networking-introduction", category := .networking,
      tone := .professional, delayHours := 48 },
    { id := "cs-onboarding", category := .customerSuccess,
      tone := .friendly, delayHours := 120 },
    { id := "cs-feature-adoption", category := .customerSuccess,
      tone := .friendly, delayHours := 168 },
    { id := "cs-renewal", category := .customerSuccess,
      tone := .professional, delayHours := 336 },
    { id := "cs-feedback", category := .customerSuccess,
      tone := .friendly, delayHours := 240 },
    { id := "recruiting-candidate", category := .recruiting,
      tone := .professional, delayHours := 96 },
    { id := "recruiting-interview-scheduling", category := .recruiting,
      tone := .professional, delayHours := 48 },
    { id := "recruiting-offer", category := .recruiting,
      tone := .friendly, delayHours := 72 } ]

/-- Lookup of a template by its id, mirroring how the templates page
identifies a template. -/
def template? (i : String) : Option EmailTemplate :=
  templates.find? (fun t => t.id == i)

/-- The delay_hours URL parameter handleUseTemplate (templates page)
puts into the composer link: template.delayHours.toString(). -/
def handleUseTemplate_delay_param (t : EmailTemplate) : String :=
  Nat.repr t.delayHours

/-- Accumulator loop of a base-10 parseInt over a character list:
fails on the first non-digit, otherwise folds the digits in. -/
def digits_to_nat : List Char → Nat → Option Nat
| [], acc => some acc
| c :: cs, acc =>
    if c.isDigit then digits_to_nat cs (acc * 10 + (c.toNat - 48)) else none

/-- The composer page prefill of the delay field from the URL
parameter: parseInt(delayHours, 10) on a decimal digit string
(none on an empty or non-numeric string). -/
def composer_prefill_delay (s : String) : Option Nat :=
  match s.data with
  | [] => none
  | l => digits_to_nat l 0

/-- The delay_hours rule of composerSchema (composer page): a number
at least 1 and at most 168. -/
def composer_delay_valid (d : Nat) : Bool :=
  decide (1 ≤ d ∧ d ≤ 168)

/-- The documented API validation range for delay_hours
(DATABASE.md: Integer 1-168). -/
def api_delay_valid (d : Nat) : Bool :=
  decide (1 ≤ d ∧ d ≤ 168)

/-- The composer form fields (composerSchema in the composer page). -/
structure ComposerFormData where
  to_email : String
  subject : String
  thread_context : String
  tone : Tone
  delay_hours : Nat
  recipient_name : Option String
deriving DecidableEq, Repr

/-- The POST /v1/followups request body (CreateFollowUpRequest in
lib/api): connection_id and original_message_id are optional. -/
structure CreateFollowUpRequest where
  connection_id : Option Nat
  original_recipient : String
  original_subject : String
  original_body : String
  original_message_id : Option String
  delay_hours : Nat
  tone : Tone
  max_followups : Nat
  stop_on_reply : Bool
deriving DecidableEq, Repr

/-- The request body built by onScheduleFollowUp (composer page):
recipient, subject, body, delay and tone come from the form; no
connection_id and no original_message_id are set; max_followups is the
literal 1 and stop_on_reply the literal true. -/
def onScheduleFollowUp_request (formData : ComposerFormData) : CreateFollowUpRequest :=
  { connection_id := none,
    original_recipient := formData.to_email,
    original_subject := formData.subject,
    original_body := formData.thread_context,
    original_message_id := none,
    delay_hours := formData.delay_hours,
    tone := formData.tone,
    max_followups := 1,
    stop_on_reply := true }

/-! Auxiliary relations and sample values used by the theorems. -/

/-- The edges of the section 4.1 state machine, read with the section
4.1/9 note that scheduled is a synonym of pending for dispatch
eligibility (so each pending edge has a scheduled counterpart):
send success into sent, reschedule-on-failure back into pending,
retries-exhausted into failed, manual cancel into cancelled, and
reply observed into replied (also from sent). -/
def edge : JobStatus → JobStatus → Bool
| .pending, .sent => true
| .pending, .pending => true
| .pending, .failed => true
| .pending, .cancelled => true
| .pending, .replied => true
| .scheduled, .sent => true
| .scheduled, .pending => true
| .scheduled, .failed => true
| .scheduled, .cancelled => true
| .scheduled, .replied => true
| .sent, .replied => true
| _, _ => false

/-- The section 4.1 edges extended with the section 4.4 manual-retry
edge, which moves a terminal failed job back to eligible pending. -/
def edge_ext (a b : JobStatus) : Bool :=
  edge a b || (a == .failed && b == .pending)

/-- A status move is acceptable when it is a self-loop (no-op) or an
edge of the extended state machine. -/
def stepOk (a b : JobStatus) : Prop :=
  b = a ∨ edge_ext a b = true

/-- The row-wise contract of record_reply used by the cascading
cancellation theorem: the target row becomes replied when eligible;
a distinct non-terminal row for the same recipient under the same user
becomes cancelled; a distinct terminal row is untouched. -/
def reply_outcome (target : Job) (received_at : Nat) (j j2 : Job) : Prop :=
  (j.id = target.id → reply_eligible j.status = true →
      j2 = { j with status := .replied, reply_received_at := some received_at }) ∧
  (j.id ≠ target.id → j.user_id = target.user_id →
      j.original_recipient = target.original_recipient →
      terminal j.status = false → j2 = { j with status := .cancelled }) ∧
  (j.id ≠ target.id → terminal j.status = true → j2 = j)

/-- A sample job used to instantiate theorems with hypotheses. -/
def sampleJob (s : JobStatus) : Job :=
  { id := 1, user_id := 1, connection_id := 1,
    original_recipient := "client@example.com",
    original_subject := "Project Proposal",
    original_body := "Hi, I wanted to follow up",
    delay_hours := 48, tone := .professional, max_followups := 1,
    stop_on_reply := true, status := s, scheduled_at := some 1000 }

/-- A sample sibling job for the same recipient under the same user as
sampleJob, with a distinct id. -/
def siblingJob (s : JobStatus) : Job :=
  { id := 2, user_id := 1, connection_id := 1,
    original_recipient := "client@example.com",
    original_subject := "Second touch",
    original_body := "Checking in again",
    delay_hours := 24, tone := .friendly, max_followups := 1,
    stop_on_reply := true, status := s, scheduled_at := some 2000 }

/-- A sample connection used to instantiate theorems with hypotheses. -/
def sampleConn (s : ConnectionStatus) : Connection :=
  { id := 1, user_id := 1, provider := "resend",
    provider_email := "noreply@example.com", status := s }

/-- A sample job-creation draft with the given delay and max-followups. -/
def sampleDraft (d m : Nat) : JobDraft :=
  { connection_id := 1, original_recipient := "client@example.com",
    original_subject := "Project Proposal", original_body := "Hi",
    delay_hours := d, tone := .professional, max_followups := m,
    stop_on_reply := true }

/-- A sample composer form submission. -/
def sampleForm : ComposerFormData :=
  { to_email := "client@example.com", subject := "Project Proposal",
    thread_context := "Hi John, I wanted to share our proposal",
    tone := .professional, delay_hours := 48, recipient_name := none }

/-! Helper lemmas. -/

lemma mem_list_due {store : List Job} {now : Nat} {j : Job} :
    j ∈ list_due store now ↔ j ∈ store ∧ is_due now j = true := by
  unfold list_due
  rw [List.mem_insertionSort, List.mem_filter]

lemma is_due_iff (now : Nat) (j : Job) :
    is_due now j = true ↔
      (j.status = .pending ∨ j.status = .scheduled) ∧
        ∃ t, j.scheduled_at = some t ∧ t ≤ now := by
  cases ht : j.scheduled_at with
  | none => cases hs : j.status <;> simp [is_due, hs, ht]
  | some t => cases hs : j.status <;> simp [is_due, hs, ht]

lemma mark_sent_stepOk (j : Job) (m : String) (t : Nat) :
    stepOk j.status (mark_sent j m t).status := by
  by_cases h : j.status = .pending ∨ j.status = .scheduled
  · have hs : (mark_sent j m t).status = .sent := by
      simp [mark_sent, h]
    rw [hs]
    rcases h with h | h <;> rw [h] <;> exact Or.inr (by decide)
  · have hs : mark_sent j m t = j := by
      simp [mark_sent, h]
    rw [hs]
    exact Or.inl rfl

lemma mark_failed_stepOk (j : Job) (e : DispatchError) (n t : Nat) :
    stepOk j.status (mark_failed j e n t).status := by
  by_cases h : j.status = .pending ∨ j.status = .scheduled
  · cases hb : backoff n with
    | none =>
        have hs : (mark_failed j e n t).status = .failed := by
          simp [mark_failed, h, hb]
        rw [hs]
        rcases h with h | h <;> rw [h] <;> exact Or.inr (by decide)
    | some d =>
        have hs : (mark_failed j e n t).status = .pending := by
          simp [mark_failed, h, hb]
        rw [hs]
        rcases h with h | h <;> rw [h] <;> exact Or.inr (by decide)
  · have hs : mark_failed j e n t = j := by
      simp [mark_failed, h]
    rw [hs]
    exact Or.inl rfl

lemma mark_sent_fix (j : Job) (m : String) (t : Nat)
    (h : ¬ (j.status = .pending ∨ j.status = .scheduled)) :
    mark_sent j m t = j := by
  simp [mark_sent, h]

lemma mark_failed_fix (j : Job) (e : DispatchError) (n t : Nat)
    (h : ¬ (j.status = .pending ∨ j.status = .scheduled)) :
    mark_failed j e n t = j := by
  simp [mark_failed, h]

lemma reply_update_stepOk (target : Job) (i r : Nat) (j : Job) :
    stepOk j.status (reply_update target i r j).status := by
  unfold reply_update
  split
  · split
    · rename_i helig
      cases hs : j.status <;> rw [hs] at helig <;>
        simp [reply_eligible] at helig <;>
        exact Or.inr (by simp [edge_ext, edge])
    · exact Or.inl rfl
  · split
    · rename_i hcond
      have hterm : terminal j.status = false := by
        rcases Bool.and_eq_true .. |>.mp hcond with ⟨-, hnt⟩
        simpa using hnt
      cases hs : j.status <;> rw [hs] at hterm <;>
        simp [terminal] at hterm <;>
        exact Or.inr (by simp [edge_ext, edge])
    · exact Or.inl rfl

lemma reply_update_terminal_fix (target : Job) (i r : Nat) (j : Job)
    (h : j.status = .replied ∨ j.status = .cancelled) :
    reply_update target i r j = j := by
  rcases h with h | h <;>
    simp [reply_update, reply_eligible, terminal, h]

lemma rel_map_self {α : Type} {R : α → α → Prop} (g : α → α)
    (hg : ∀ a, R a (g a)) : ∀ l : List α, List.Forall₂ R l (l.map g)
| [] => List.Forall₂.nil
| a :: l => List.Forall₂.cons (hg a) (rel_map_self g hg l)

/-! Claim theorems. -/

/-- C1: a job that fails a send attempt follows the fixed three-step
backoff ladder: the 1st failure reschedules it 1 minute (60 s) after
the failure time, the 2nd failure 5 minutes (300 s), the 3rd failure
15 minutes (900 s), and the 4th failure transitions it to terminal
failed, after which mark_failed is a no-op and the job is never due
(never rescheduled again). -/
theorem c1_backoff_ladder (j : Job) (e : DispatchError) (now : Nat)
    (h : j.status = .pending ∨ j.status = .scheduled) :
    (j.failure_count = 0 →
        (mark_failed j e (j.failure_count + 1) now).status = .pending ∧
        (mark_failed j e (j.failure_count + 1) now).scheduled_at = some (now + 60)) ∧
    (j.failure_count = 1 →
        (mark_failed j e (j.failure_count + 1) now).status = .pending ∧
        (mark_failed j e (j.failure_count + 1) now).scheduled_at = some (now + 300)) ∧
    (j.failure_count = 2 →
        (mark_failed j e (j.failure_count + 1) now).status = .pending ∧
        (mark_failed j e (j.failure_count + 1) now).scheduled_at = some (now + 900)) ∧
    (j.failure_count = 3 →
        (mark_failed j e (j.failure_count + 1) now).status = .failed) ∧
    (∀ (jf : Job), jf.status = .failed →
        (∀ e2 k t, mark_failed jf e2 k t = jf) ∧
        (∀ store t, jf ∉ list_due store t)) := by
  refine ⟨?_, ?_, ?_, ?_, ?_⟩
  · intro h0
    have hb : backoff (j.failure_count + 1) = some 60 := by rw [h0]; decide
    rcases h with hs | hs <;> simp [mark_failed, hs, hb]
  · intro h0
    have hb : backoff (j.failure_count + 1) = some 300 := by rw [h0]; decide
    rcases h with hs | hs <;> simp [mark_failed, hs, hb]
  · intro h0
    have hb : backoff (j.failure_count + 1) = some 900 := by rw [h0]; decide
    rcases h with hs | hs <;> simp [mark_failed, hs, hb]
  · intro h0
    have hb : backoff (j.failure_count + 1) = none := by rw [h0]; decide
    rcases h with hs | hs <;> simp [mark_failed, hs, hb]
  · intro jf hf
    refine ⟨fun e2 k t => ?_, fun store t hmem => ?_⟩
    · simp [mark_failed, hf]
    · rw [mem_list_due] at hmem
      rcases hmem with ⟨-, hdue⟩
      simp [is_due, hf] at hdue

/-- Witness for C1 at a concrete pending job with zero prior failures. -/
theorem c1_backoff_ladder_witness :
    (sampleJob .pending).failure_count = 0 ∧
    (mark_failed (sampleJob .pending) .sendTransient
        ((sampleJob .pending).failure_count + 1) 50).status = JobStatus.pending ∧
    (mark_failed (sampleJob .pending) .sendTransient
        ((sampleJob .pending).failure_count + 1) 50).scheduled_at = some (50 + 60) :=
  ⟨rfl, (c1_backoff_ladder (sampleJob .pending) .sendTransient 50 (Or.inl rfl)).1 rfl⟩

/-- C4: mark_sent is idempotent — a second call with the same job and
message id is a no-op, and a first call on a send-eligible job leaves
the job sent with sent_at unchanged by the second call. -/
theorem c4_mark_sent_idempotent (j : Job) (m : String) (t : Nat) :
    mark_sent (mark_sent j m t) m t = mark_sent j m t ∧
    (j.status = .pending ∨ j.status = .scheduled →
        (mark_sent j m t).status = .sent ∧
        (mark_sent j m t).sent_at = some t ∧
        (mark_sent (mark_sent j m t) m t).sent_at = some t) := by
  constructor
  · cases hs : j.status <;> simp [mark_sent, hs]
  · intro h
    rcases h with h | h <;> simp [mark_sent, h]

/-- Witness for C4 at a concrete pending job. -/
theorem c4_mark_sent_idempotent_witness :
    mark_sent (mark_sent (sampleJob .pending) "mid" 9) "mid" 9
      = mark_sent (sampleJob .pending) "mid" 9 ∧
    (mark_sent (sampleJob .pending) "mid" 9).status = JobStatus.sent ∧
    (mark_sent (sampleJob .pending) "mid" 9).sent_at = some 9 :=
  ⟨(c4_mark_sent_idempotent (sampleJob .pending) "mid" 9).1,
   ((c4_mark_sent_idempotent (sampleJob .pending) "mid" 9).2 (Or.inl rfl)).1,
   ((c4_mark_sent_idempotent (sampleJob .pending) "mid" 9).2 (Or.inl rfl)).2.1⟩

/-- C5: list_due returns exactly the jobs of the store whose status is
pending or scheduled and whose scheduled_at is at most now, ordered by
scheduled_at ascending. -/
theorem c5_list_due_spec (store : List Job) (now : Nat) :
    (∀ j : Job, j ∈ list_due store now ↔
        j ∈ store ∧ (j.status = .pending ∨ j.status = .scheduled) ∧
          ∃ t, j.scheduled_at = some t ∧ t ≤ now) ∧
    List.Sorted due_le (list_due store now) := by
  constructor
  · intro j
    rw [mem_list_due, is_due_iff]
  · exact List.sorted_insertionSort due_le (store.filter (is_due now))

/-- Witness for C5 at a concrete one-job store. -/
theorem c5_list_due_spec_witness :
    (sampleJob .pending) ∈ list_due [sampleJob .pending] 2000 ∧
    List.Sorted due_le (list_due [sampleJob .pending] 2000) :=
  ⟨((c5_list_due_spec [sampleJob .pending] 2000).1 (sampleJob .pending)).2
      ⟨List.mem_singleton.2 rfl, Or.inl rfl, 1000, rfl, by decide⟩,
   (c5_list_due_spec [sampleJob .pending] 2000).2⟩

/-- C7: the Dispatch Worker step for a due job whose connection is not
active consumes zero provider-adapter calls, immediately marks the job
failed with the connection-specific error, and never sends it. -/
theorem c7_connection_gating (conn : Connection) (outcome : SendOutcome) (j : Job)
    (now : Nat) (hconn : conn.status ≠ .active)
    (hj : j.status = .pending ∨ j.status = .scheduled) :
    (process_job conn outcome j now).2 = 0 ∧
    (process_job conn outcome j now).1 =
      mark_failed j .connectionInactive (j.failure_count + 1) now ∧
    (process_job conn outcome j now).1.last_error = some .connectionInactive ∧
    (process_job conn outcome j now).1.status ≠ .sent := by
  have hp : process_job conn outcome j now =
      (mark_failed j .connectionInactive (j.failure_count + 1) now, 0) := by
    unfold process_job
    rw [if_pos hconn]
  refine ⟨by rw [hp], by rw [hp], ?_, ?_⟩
  · rw [hp]
    cases hb : backoff (j.failure_count + 1) with
    | none => rcases hj with hs | hs <;> simp [mark_failed, hs, hb]
    | some d => rcases hj with hs | hs <;> simp [mark_failed, hs, hb]
  · rw [hp]
    cases hb : backoff (j.failure_count + 1) with
    | none => rcases hj with hs | hs <;> simp [mark_failed, hs, hb]
    | some d => rcases hj with hs | hs <;> simp [mark_failed, hs, hb]

/-- Witness for C7 at a disabled connection and a concrete pending job. -/
theorem c7_connection_gating_witness :
    (process_job (sampleConn .disabled) (.ok "mid") (sampleJob .pending) 10).2 = 0 ∧
    (process_job (sampleConn .disabled) (.ok "mid") (sampleJob .pending) 10).1.last_error
      = some .connectionInactive :=
  ⟨(c7_connection_gating (sampleConn .disabled) (.ok "mid") (sampleJob .pending) 10
      (by decide) (Or.inl rfl)).1,
   (c7_connection_gating (sampleConn .disabled) (.ok "mid") (sampleJob .pending) 10
      (by decide) (Or.inl rfl)).2.2.1⟩

/-- C8: cancel succeeds (moving the job to cancelled) exactly when the
job is pending or scheduled; on sent, replied, cancelled or failed it
returns InvalidStateError (HTTP 400) and no updated job. -/
theorem c8_cancel_guard (j : Job) :
    (cancel j = Except.ok { j with status := .cancelled } ↔
        j.status = .pending ∨ j.status = .scheduled) ∧
    ((j.status = .sent ∨ j.status = .replied ∨
        j.status = .cancelled ∨ j.status = .failed) →
      cancel j = Except.error .invalidStateError) ∧
    httpStatus .invalidStateError = 400 := by
  cases hs : j.status <;> simp [cancel, hs, httpStatus]

/-- Witness for C8 at a concrete sent job. -/
theorem c8_cancel_guard_witness :
    cancel (sampleJob .sent) = Except.error .invalidStateError :=
  (c8_cancel_guard (sampleJob .sent)).2.1 (Or.inl rfl)

/-- C9: the built-in templates library carries two templates whose
delayHours exceed 168 — cs-renewal (336) and cs-feedback (240); the
delay_hours URL parameter handleUseTemplate passes for them pre-fills
the composer with those values, which both the composer schema
(maximum 168) and the documented API range [1, 168] reject. -/
theorem c9_template_delays_exceed_limit :
    (templates.filter (fun t => !composer_delay_valid t.delayHours)).map
        (fun t => (t.id, t.delayHours)) =
      [("cs-renewal", 336), ("cs-feedback", 240)] ∧
    (template? "cs-renewal").map
        (fun t => composer_prefill_delay (handleUseTemplate_delay_param t))
      = some (some 336) ∧
    (template? "cs-feedback").map
        (fun t => composer_prefill_delay (handleUseTemplate_delay_param t))
      = some (some 240) ∧
    composer_delay_valid 336 = false ∧ api_delay_valid 336 = false ∧
    composer_delay_valid 240 = false ∧ api_delay_valid 240 = false := by
  refine ⟨rfl, by decide, by decide, rfl, rfl, rfl, rfl⟩

/-- C10: every composer submission builds its request with
max_followups hard-coded to 1, stop_on_reply hard-coded to true, and no
connection_id, whatever the form data. -/
theorem c10_composer_fixed_fields (formData : ComposerFormData) :
    (onScheduleFollowUp_request formData).max_followups = 1 ∧
    (onScheduleFollowUp_request formData).stop_on_reply = true ∧
    (onScheduleFollowUp_request formData).connection_id = none ∧
    (onScheduleFollowUp_request formData).original_message_id = none :=
  ⟨rfl, rfl, rfl, rfl⟩

/-- C3: the enqueue contract — ValidationError when the range
constraints (delay_hours in [1, 168], max_followups in [1, 5]) are
violated; NotFoundError when the connection is absent or not owned by
the caller; InvalidStateError when the connection is not active;
otherwise a pending job with scheduled_at = now + delay_hours; given an
owned active connection, acceptance is equivalent to the range
constraints; with the documented HTTP codes 400/404/400. -/
theorem c3_enqueue_contract (connections : List Connection) (caller_id : Nat)
    (draft : JobDraft) (now new_id : Nat) :
    (¬ draft_valid draft →
        enqueue connections caller_id draft now new_id
          = Except.error .validationError) ∧
    (draft_valid draft →
      connections.find? (fun c => c.id == draft.connection_id) = none →
        enqueue connections caller_id draft now new_id
          = Except.error .notFoundError) ∧
    (∀ c : Connection, draft_valid draft →
      connections.find? (fun c2 => c2.id == draft.connection_id) = some c →
      c.user_id ≠ caller_id →
        enqueue connections caller_id draft now new_id
          = Except.error .notFoundError) ∧
    (∀ c : Connection, draft_valid draft →
      connections.find? (fun c2 => c2.id == draft.connection_id) = some c →
      c.user_id = caller_id → c.status ≠ .active →
        enqueue connections caller_id draft now new_id
          = Except.error .invalidStateError) ∧
    (∀ c : Connection, draft_valid draft →
      connections.find? (fun c2 => c2.id == draft.connection_id) = some c →
      c.user_id = caller_id → c.status = .active →
        enqueue connections caller_id draft now new_id
          = Except.ok
            { id := new_id, user_id := caller_id, connection_id := c.id,
              original_recipient := draft.original_recipient,
              original_subject := draft.original_subject,
              original_body := draft.original_body,
              delay_hours := draft.delay_hours, tone := draft.tone,
              max_followups := draft.max_followups,
              stop_on_reply := draft.stop_on_reply,
              status := .pending,
              scheduled_at := some (now + draft.delay_hours * 3600),
              created_at := now }) ∧
    (∀ c : Connection,
      connections.find? (fun c2 => c2.id == draft.connection_id) = some c →
      c.user_id = caller_id → c.status = .active →
        ((∃ j, enqueue connections caller_id draft now new_id = Except.ok j) ↔
          draft_valid draft)) ∧
    httpStatus .validationError = 400 ∧ httpStatus .notFoundError = 404 ∧
    httpStatus .invalidStateError = 400 := by
  have h1 : ¬ draft_valid draft →
      enqueue connections caller_id draft now new_id
        = Except.error .validationError := by
    intro hv
    unfold enqueue
    rw [if_pos hv]
  have h5 : ∀ c : Connection, draft_valid draft →
      connections.find? (fun c2 => c2.id == draft.connection_id) = some c →
      c.user_id = caller_id → c.status = .active →
        enqueue connections caller_id draft now new_id
          = Except.ok
            { id := new_id, user_id := caller_id, connection_id := c.id,
              original_recipient := draft.original_recipient,
              original_subject := draft.original_subject,
              original_body := draft.original_body,
              delay_hours := draft.delay_hours, tone := draft.tone,
              max_followups := draft.max_followups,
              stop_on_reply := draft.stop_on_reply,
              status := .pending,
              scheduled_at := some (now + draft.delay_hours * 3600),
              created_at := now } := by
    intro c hv hf he ha
    simp [enqueue, hv, hf, he, ha]
  refine ⟨h1, ?_, ?_, ?_, h5, ?_, rfl, rfl, rfl⟩
  · intro hv hf
    simp [enqueue, hv, hf]
  · intro c hv hf hne
    simp [enqueue, hv, hf, hne]
  · intro c hv hf he ha
    simp [enqueue, hv, hf, he, ha]
  · intro c hf he ha
    constructor
    · rintro ⟨j, hj⟩
      by_contra hv
      rw [h1 hv] at hj
      exact Except.noConfusion hj
    · intro hv
      exact ⟨_, h5 c hv hf he ha⟩

/-- Witness for C3: a valid draft against an owned active connection is
accepted as a pending job, and an out-of-range delay is rejected. -/
theorem c3_enqueue_contract_witness :
    draft_valid (sampleDraft 48 1) ∧
    enqueue [sampleConn .active] 1 (sampleDraft 48 1) 0 7
      = Except.ok
        { id := 7, user_id := 1, connection_id := 1,
          original_recipient := "client@example.com",
          original_subject := "Project Proposal", original_body := "Hi",
          delay_hours := 48, tone := .professional, max_followups := 1,
          stop_on_reply := true, status := .pending,
          scheduled_at := some 172800, created_at := 0 } ∧
    enqueue [sampleConn .active] 1 (sampleDraft 200 1) 0 7
      = Except.error .validationError :=
  ⟨by decide,
   (c3_enqueue_contract [sampleConn .active] 1 (sampleDraft 48 1) 0 7).2.2.2.2.1
      (sampleConn .active) (by decide) rfl rfl rfl,
   (c3_enqueue_contract [sampleConn .active] 1 (sampleDraft 200 1) 0 7).1
      (by decide)⟩

/-- C6: record_reply transitions the replied-to job to replied and,
since it has stop_on_reply set, cancels every other non-terminal job
for the same recipient under the same user while leaving already
terminal jobs untouched — row by row along the store. -/
theorem c6_record_reply_cascade (store : List Job) (target : Job) (received_at : Nat)
    (hfind : store.find? (fun j => j.id == target.id) = some target)
    (hstop : target.stop_on_reply = true) :
    List.Forall₂ (reply_outcome target received_at) store
      (record_reply store target.id received_at) := by
  unfold record_reply
  rw [hfind]
  apply rel_map_self
  intro a
  refine ⟨?_, ?_, ?_⟩
  · intro hid helig
    have hb : (a.id == target.id) = true := beq_iff_eq.2 hid
    simp [reply_update, hb, helig]
  · intro hid huser hrecip hterm
    have hb : (a.id == target.id) = false := by simp [hid]
    simp [reply_update, hb, hstop, huser, hrecip, hterm]
  · intro hid hterm
    have hb : (a.id == target.id) = false := by simp [hid]
    simp [reply_update, hb, hterm]

/-- Witness for C6 at a concrete two-job store: a pending target and a
pending sibling for the same recipient under the same user. -/
theorem c6_record_reply_cascade_witness :
    List.Forall₂ (reply_outcome (sampleJob .pending) 77)
      [sampleJob .pending, siblingJob .pending]
      (record_reply [sampleJob .pending, siblingJob .pending]
        (sampleJob .pending).id 77) :=
  c6_record_reply_cascade [sampleJob .pending, siblingJob .pending]
    (sampleJob .pending) 77 rfl rfl

/-- C2 (amended): every operation moves a job status only along the
section 4.1 edges extended with the section 4.4 manual-retry edge
(failed back to pending) or leaves it unchanged; enqueue creates jobs
in the initial pending status; and no operation ever changes a job
whose status is replied or cancelled. (As literally stated the claim
is false: sent and failed are listed terminal, yet record_reply moves
a sent job to replied and retry moves a failed job back to pending —
see the counterexample.) -/
theorem c2_state_machine :
    (∀ (connections : List Connection) (caller_id : Nat) (draft : JobDraft)
        (now new_id : Nat) (j : Job),
        enqueue connections caller_id draft now new_id = Except.ok j →
        j.status = .pending) ∧
    (∀ (j : Job) (m : String) (t : Nat), stepOk j.status (mark_sent j m t).status) ∧
    (∀ (j : Job) (e : DispatchError) (n t : Nat),
        stepOk j.status (mark_failed j e n t).status) ∧
    (∀ (j j2 : Job), cancel j = Except.ok j2 → edge_ext j.status j2.status = true) ∧
    (∀ (j j2 : Job) (t : Nat), retry j t = Except.ok j2 →
        edge_ext j.status j2.status = true) ∧
    (∀ (store : List Job) (i t : Nat),
        List.Forall₂ (fun a b => stepOk a.status b.status ∧
          ((a.status = .replied ∨ a.status = .cancelled) → b = a))
          store (record_reply store i t)) ∧
    (∀ (conn : Connection) (oc : SendOutcome) (j : Job) (t : Nat),
        stepOk j.status (send_now conn oc j t).1.status) ∧
    (∀ (j : Job), j.status = .replied ∨ j.status = .cancelled →
        (∀ m t, mark_sent j m t = j) ∧
        (∀ e n t, mark_failed j e n t = j) ∧
        cancel j = Except.error .invalidStateError ∧
        (∀ t, retry j t = Except.error .invalidStateError)) := by
  refine ⟨?_, mark_sent_stepOk, mark_failed_stepOk, ?_, ?_, ?_, ?_, ?_⟩
  · intro conns caller draft now nid j h
    unfold enqueue at h
    split at h
    · simp at h
    · split at h
      · simp at h
      · split at h
        · simp at h
        · split at h
          · simp at h
          · injection h with h2
            subst h2
            rfl
  · intro j j2 h
    unfold cancel at h
    split at h
    · rename_i hc
      injection h with h2
      subst h2
      rcases hc with hc | hc <;> simp [edge_ext, edge, hc]
    · exact Except.noConfusion h
  · intro j j2 t h
    unfold retry at h
    split at h
    · rename_i hf
      injection h with h2
      subst h2
      simp [edge_ext, edge, hf]
    · exact Except.noConfusion h
  · intro store i t
    unfold record_reply
    cases hfind : store.find? (fun j => j.id == i) with
    | none =>
        exact List.forall₂_same.2 (fun a _ => ⟨Or.inl rfl, fun _ => rfl⟩)
    | some target =>
        exact rel_map_self _
          (fun a => ⟨reply_update_stepOk target i t a,
            fun h => reply_update_terminal_fix target i t a h⟩) store
  · intro conn oc j t
    cases oc with
    | ok m =>
        by_cases hc : conn.status ≠ .active
        · have hp : (send_now conn (.ok m) j t).1
              = mark_failed j .connectionInactive (j.failure_count + 1) t := by
            unfold send_now process_job
            rw [if_pos hc]
          rw [hp]
          exact mark_failed_stepOk j .connectionInactive (j.failure_count + 1) t
        · have hp : (send_now conn (.ok m) j t).1 = mark_sent j m t := by
            unfold send_now process_job
            rw [if_neg hc]
          rw [hp]
          exact mark_sent_stepOk j m t
    | fail e =>
        by_cases hc : conn.status ≠ .active
        · have hp : (send_now conn (.fail e) j t).1
              = mark_failed j .connectionInactive (j.failure_count + 1) t := by
            unfold send_now process_job
            rw [if_pos hc]
          rw [hp]
          exact mark_failed_stepOk j .connectionInactive (j.failure_count + 1) t
        · have hp : (send_now conn (.fail e) j t).1
              = mark_failed j e (j.failure_count + 1) t := by
            unfold send_now process_job
            rw [if_neg hc]
          rw [hp]
          exact mark_failed_stepOk j e (j.failure_count + 1) t
  · intro j h
    have hne : ¬ (j.status = .pending ∨ j.status = .scheduled) := by
      rcases h with h | h <;> simp [h]
    have hnf : ¬ j.status = .failed := by
      rcases h with h | h <;> simp [h]
    refine ⟨fun m t => mark_sent_fix j m t hne,
      fun e n t => mark_failed_fix j e n t hne, ?_, fun t => ?_⟩
    · unfold cancel
      rw [if_neg hne]
    · unfold retry
      rw [if_neg hnf]

/-- Witness for C2 at concrete replied and cancelled jobs. -/
theorem c2_state_machine_witness :
    mark_sent (sampleJob .replied) "mid" 5 = sampleJob .replied ∧
    cancel (sampleJob .cancelled) = Except.error .invalidStateError :=
  ⟨(c2_state_machine.2.2.2.2.2.2.2 (sampleJob .replied) (Or.inl rfl)).1 "mid" 5,
   (c2_state_machine.2.2.2.2.2.2.2 (sampleJob .cancelled) (Or.inr rfl)).2.2.1⟩

/-- Counterexample to C2 as stated: record_reply changes the status of
a job that is in the claimed-terminal state sent — it moves it to
replied, so an operation does change the status of a job in a state the
claim lists as terminal. -/
theorem c2_counterexample :
    (sampleJob .sent).status = .sent ∧
    (record_reply [sampleJob .sent] (sampleJob .sent).id 100).map Job.status
      = [JobStatus.replied] :=
  ⟨rfl, rfl⟩

end Loom
